import Mathlib

/-!
Verification development for the Brainy_Fools retail demand forecasting and
inventory optimization repository.

The inventory-optimization core lives in the workflow document
`src/unnamed/part_000` as embedded Python (`calculate_reorder_point`,
`calculate_eoq`, and the `get_forecast` endpoint); the UI helpers live in
`src/frontend/src/pages/forecast.js` (`generateDummyData`),
`src/frontend/src/pages/analytics.js` (`getStatusStyle`) and
`src/unnamed/part_003` (the `Alert` component).  This file gives a shallow
embedding of those functions over `ℝ`, `ℤ`, `List` and `String`, plus the
spec-modelled pieces whose implementation is not under `src/`, and proves or
refutes the frozen claims about them.
-/

set_option maxHeartbeats 1000000

namespace BrainyFools

noncomputable section
open Classical

/-- Mean of a numpy array, as used by `forecast[:lead_time].mean()` in
`calculate_reorder_point` (src/unnamed/part_000).  Empty input gives `0/0 = 0`
in this embedding. -/
def npMean (xs : List ℝ) : ℝ := xs.sum / xs.length

/-- Standard deviation of a numpy array, as used by
`forecast[:lead_time].std()` in `calculate_reorder_point`
(src/unnamed/part_000).  The only in-repo call site passes
`forecast['yhat'].tail(...).values`, a numpy `ndarray`, whose `.std()` uses the
population convention `ddof = 0`: the squared deviations are divided by `N`,
not `N - 1`. -/
def npStd (xs : List ℝ) : ℝ :=
  Real.sqrt ((xs.map (fun x => (x - npMean xs) ^ 2)).sum / xs.length)

/-- `calculate_reorder_point(forecast, lead_time, safety_stock_factor)` from
src/unnamed/part_000 lines 135-159:
`avg_daily_demand = forecast[:lead_time].mean()`,
`std_demand = forecast[:lead_time].std()`,
`safety_stock = safety_stock_factor * std_demand * (lead_time ** 0.5)`,
`reorder_point = (avg_daily_demand * lead_time) + safety_stock`. -/
def calculate_reorder_point (forecast : List ℝ) (lead_time : ℕ)
    (safety_stock_factor : ℝ) : ℝ :=
  npMean (forecast.take lead_time) * lead_time
    + safety_stock_factor * npStd (forecast.take lead_time) * Real.sqrt lead_time

/-- Outcome of running `calculate_eoq` under Python float semantics:
either a real value is returned, or the division `2*D*S / holding_cost`
raises `ZeroDivisionError`, or `(negative) ** 0.5` produces a complex
(non-real) number. -/
inductive PyNumResult where
  | val : ℝ → PyNumResult
  | zeroDivisionError : PyNumResult
  | complexResult : PyNumResult

/-- `calculate_eoq(annual_demand, ordering_cost, holding_cost_percentage,
unit_cost)` from src/unnamed/part_000 lines 167-183:
`holding_cost = holding_cost_percentage * unit_cost`,
`eoq = (2 * annual_demand * ordering_cost / holding_cost) ** 0.5`.
The function performs no validation of its own; the embedding records the
behaviour of the Python primitives: float division by a zero `holding_cost`
raises `ZeroDivisionError`, and a negative radicand under `** 0.5` yields a
complex number instead of a real. -/
def calculate_eoq (annual_demand ordering_cost holding_cost_percentage
    unit_cost : ℝ) : PyNumResult :=
  if holding_cost_percentage * unit_cost = 0 then
    PyNumResult.zeroDivisionError
  else if 2 * annual_demand * ordering_cost / (holding_cost_percentage * unit_cost) < 0 then
    PyNumResult.complexResult
  else
    PyNumResult.val
      (Real.sqrt (2 * annual_demand * ordering_cost / (holding_cost_percentage * unit_cost)))

/-- Result of the `days_until_stockout` computation in the `get_forecast`
endpoint: either a finite number of days, or the explicit `float('inf')`
sentinel chosen in the `else` branch. -/
inductive StockoutDays where
  | days : ℝ → StockoutDays
  | unbounded : StockoutDays

/-- The `days_until_stockout` expression from `get_forecast`
(src/unnamed/part_000 lines 285-323):
`float(latest_inventory / average_daily_demand) if average_daily_demand > 0
else float('inf')`.  `StockoutDays.unbounded` models the `float('inf')`
sentinel literal. -/
def days_until_stockout (latest_inventory average_daily_demand : ℝ) :
    StockoutDays :=
  if 0 < average_daily_demand then
    StockoutDays.days (latest_inventory / average_daily_demand)
  else
    StockoutDays.unbounded

/-- `get_forecast` computes `average_daily_demand` as the mean of the
forecast window (`forecast['yhat'].tail(request.forecast_days).mean()`) and
feeds it to the guarded division above. -/
def get_forecast_days_until_stockout (latest_inventory : ℝ)
    (yhat_window : List ℝ) : StockoutDays :=
  days_until_stockout latest_inventory (npMean yhat_window)

/-- The three stock status values of a `ReorderRecommendation`. -/
inductive StockStatus where
  | outOfStock : StockStatus
  | reorderNeeded : StockStatus
  | sufficient : StockStatus

/-- Modelled from the spec: the status rule of `InventoryOptimizer.evaluate`
(contract 3), whose backend implementation is not under `src/` (the frontend
`getStatusStyle` in src/frontend/src/pages/analytics.js only styles the
resulting status strings): `status = OutOfStock if current_stock == 0;
ReorderNeeded if current_stock ≤ reorder_point; else Sufficient`. -/
def evaluate_status (current_stock reorder_point : ℝ) : StockStatus :=
  if current_stock = 0 then StockStatus.outOfStock
  else if current_stock ≤ reorder_point then StockStatus.reorderNeeded
  else StockStatus.sufficient

/-- A `ReorderRecommendation` restricted to the fields the claims are about. -/
structure ReorderRecommendation where
  current_stock : ℝ
  reorder_point : ℝ
  days_until : StockoutDays
  status : StockStatus

/-- Modelled from the spec: `InventoryOptimizer.evaluate` (contract 3), absent
from `src/`, assembled from the in-repo subroutines: the reorder point from
`calculate_reorder_point`, days-until-stockout from the guarded division of
`get_forecast`, and the spec's status rule. -/
def evaluate (current_stock : ℝ) (forecast : List ℝ) (lead_time : ℕ)
    (safety_factor : ℝ) : ReorderRecommendation :=
  { current_stock := current_stock
    reorder_point := calculate_reorder_point forecast lead_time safety_factor
    days_until := days_until_stockout current_stock (npMean forecast)
    status := evaluate_status current_stock
      (calculate_reorder_point forecast lead_time safety_factor) }

/-- One entry of a `PointForecast`: `{date, mean, lower_bound, upper_bound}`
with the date left implicit in the list position. -/
@[ext]
structure ForecastEntry where
  mean : ℝ
  lower_bound : ℝ
  upper_bound : ℝ

/-- Modelled from the spec: `EnsembleForecaster.combine` (absent from `src/`)
restricted to a two-component ensemble.  Per date, the reconciled mean is the
weighted sum of the component means, and each reconciled bound is the weighted
sum of the component bounds. -/
def combine2 (w1 w2 : ℝ) (f1 f2 : List ForecastEntry) : List ForecastEntry :=
  List.zipWith (fun e1 e2 =>
    { mean := w1 * e1.mean + w2 * e2.mean
      lower_bound := w1 * e1.lower_bound + w2 * e2.lower_bound
      upper_bound := w1 * e1.upper_bound + w2 * e2.upper_bound }) f1 f2

/-- JavaScript `Math.round`: round half away from zero, which on the
non-negative inputs arising here is `⌊x + 1/2⌋`. -/
def jsRound (x : ℝ) : ℤ := ⌊x + 1 / 2⌋

/-- `baseValue` in `generateDummyData` (src/frontend/src/pages/forecast.js
lines 29-48): `Math.floor(Math.random() * 1000) + 500`, with the random draw
`r1` made explicit. -/
def baseValue (r1 : ℝ) : ℤ := ⌊r1 * 1000⌋ + 500

/-- `seasonalFactor` in `generateDummyData`: `Math.random() * 0.3 + 0.85`. -/
def seasonalFactor (r2 : ℝ) : ℝ := r2 * 0.3 + 0.85

/-- `trendFactor` in `generateDummyData`: `Math.random() * 0.1 + 0.95`. -/
def trendFactor (r3 : ℝ) : ℝ := r3 * 0.1 + 0.95

/-- The `predicted` field of entry `index` generated by `generateDummyData`:
`Math.round(baseValue * Math.pow(trendFactor, index) * seasonalFactor)`. -/
def predictedAt (r1 r2 r3 : ℝ) (index : ℕ) : ℤ :=
  jsRound ((baseValue r1 : ℝ) * trendFactor r3 ^ index * seasonalFactor r2)

/-- The `lower` field of entry `index` generated by `generateDummyData`:
`Math.round(predicted - variance)` with `variance = predicted * 0.15`. -/
def lowerAt (r1 r2 r3 : ℝ) (index : ℕ) : ℤ :=
  jsRound ((predictedAt r1 r2 r3 index : ℝ) - (predictedAt r1 r2 r3 index : ℝ) * 0.15)

/-- The `upper` field of entry `index` generated by `generateDummyData`:
`Math.round(predicted + variance)` with `variance = predicted * 0.15`. -/
def upperAt (r1 r2 r3 : ℝ) (index : ℕ) : ℤ :=
  jsRound ((predictedAt r1 r2 r3 index : ℝ) + (predictedAt r1 r2 r3 index : ℝ) * 0.15)

end

/-- The `variants` object of the `Alert` component (src/unnamed/part_003):
a lookup that is only defined on the four declared variant keys; any other
key yields JavaScript `undefined`, modelled as `none`. -/
def alertVariants (variant : String) : Option String :=
  if variant = "default" then some "bg-blue-50 text-blue-800"
  else if variant = "destructive" then some "bg-red-50 text-red-800"
  else if variant = "success" then some "bg-green-50 text-green-800"
  else if variant = "warning" then some "bg-yellow-50 text-yellow-800"
  else none

/-- JavaScript template-literal interpolation of a possibly-`undefined`
value: `undefined` stringifies to the literal text `"undefined"`. -/
def jsInterpolate : Option String → String
  | some s => s
  | none => "undefined"

/-- The class string rendered by `Alert`:
`` `rounded-md p-4 ${variants[variant]} ${className}` ``. -/
def alertClassName (variant className : String) : String :=
  "rounded-md p-4 " ++ jsInterpolate (alertVariants variant) ++ " " ++ className

noncomputable section
open Classical

/-- Sum of squared deviations from the mean of a list. -/
def sumSqDev (xs : List ℝ) : ℝ := (xs.map (fun x => (x - npMean xs) ^ 2)).sum

lemma sumSqDev_nonneg (xs : List ℝ) : 0 ≤ sumSqDev xs := by
  apply List.sum_nonneg
  intro y hy
  obtain ⟨x, -, rfl⟩ := List.mem_map.mp hy
  positivity

lemma sum_map_sq_sub (xs : List ℝ) (c : ℝ) :
    (xs.map (fun x => (x - c) ^ 2)).sum
      = (xs.map (fun x => x ^ 2)).sum - 2 * c * xs.sum + xs.length * c ^ 2 := by
  induction xs with
  | nil => simp
  | cons a t ih =>
      simp only [List.map_cons, List.sum_cons, List.length_cons, ih]
      push_cast
      ring

lemma npMean_mul_length (xs : List ℝ) (h : xs ≠ []) :
    npMean xs * xs.length = xs.sum := by
  have hn : (xs.length : ℝ) ≠ 0 := by
    exact_mod_cast List.length_pos.mpr h |>.ne'
  rw [npMean, div_mul_cancel₀ _ hn]

/-- The mean minimizes the sum of squared deviations. -/
lemma sumSqDev_min (xs : List ℝ) (c : ℝ) :
    sumSqDev xs ≤ (xs.map (fun x => (x - c) ^ 2)).sum := by
  rcases eq_or_ne xs [] with rfl | h
  · simp [sumSqDev]
  · have hsum : xs.sum = npMean xs * xs.length := (npMean_mul_length xs h).symm
    have hn : (0 : ℝ) ≤ xs.length := by positivity
    rw [sumSqDev, sum_map_sq_sub, sum_map_sq_sub, hsum]
    nlinarith [mul_nonneg hn (sq_nonneg (c - npMean xs))]

/-- Growing the prefix window can only grow the sum of squared deviations. -/
lemma sumSqDev_take_mono (f : List ℝ) {m n : ℕ} (h : m ≤ n) :
    sumSqDev (f.take m) ≤ sumSqDev (f.take n) := by
  have hw : (f.take n).take m = f.take m := by
    rw [List.take_take, Nat.min_eq_left h]
  have hsplit : f.take m ++ (f.take n).drop m = f.take n := by
    rw [← hw]; exact List.take_append_drop m (f.take n)
  calc sumSqDev (f.take m)
      ≤ ((f.take m).map (fun x => (x - npMean (f.take n)) ^ 2)).sum :=
        sumSqDev_min _ _
    _ ≤ ((f.take n).map (fun x => (x - npMean (f.take n)) ^ 2)).sum := by
        rw [← hsplit, List.map_append, List.sum_append, hsplit]
        have h0 : 0 ≤ (((f.take n).drop m).map
            (fun x => (x - npMean (f.take n)) ^ 2)).sum := by
          apply List.sum_nonneg
          intro y hy
          obtain ⟨x, -, rfl⟩ := List.mem_map.mp hy
          positivity
        linarith
    _ = sumSqDev (f.take n) := rfl

lemma take_sum_mono (f : List ℝ) (hf : ∀ x ∈ f, 0 ≤ x) {m n : ℕ} (h : m ≤ n) :
    (f.take m).sum ≤ (f.take n).sum := by
  have hw : (f.take n).take m = f.take m := by
    rw [List.take_take, Nat.min_eq_left h]
  have hsplit : f.take m ++ (f.take n).drop m = f.take n := by
    rw [← hw]; exact List.take_append_drop m (f.take n)
  have h0 : 0 ≤ ((f.take n).drop m).sum := by
    apply List.sum_nonneg
    intro x hx
    exact hf x (List.take_subset n f (List.drop_subset m (f.take n) hx))
  calc (f.take m).sum ≤ (f.take m).sum + ((f.take n).drop m).sum := by linarith
    _ = (f.take n).sum := by rw [← List.sum_append, hsplit]

/-- Closed form of `calculate_reorder_point` on a window fully contained in
the forecast: window sum plus `safety_stock_factor` times the square root of
the window's sum of squared deviations. -/
lemma reorder_point_closed_form (f : List ℝ) (lt : ℕ) (sf : ℝ)
    (h0 : 0 < lt) (hlen : lt ≤ f.length) :
    calculate_reorder_point f lt sf
      = (f.take lt).sum + sf * Real.sqrt (sumSqDev (f.take lt)) := by
  have hwlen : (f.take lt).length = lt := by
    rw [List.length_take, Nat.min_eq_left hlen]
  have hn : ((f.take lt).length : ℝ) ≠ 0 := by
    rw [hwlen]; exact_mod_cast h0.ne'
  have hne : f.take lt ≠ [] := by
    intro hnil
    rw [hnil] at hwlen
    simp at hwlen
    omega
  have hmean : npMean (f.take lt) * lt = (f.take lt).sum := by
    have hm := npMean_mul_length (f.take lt) hne
    rwa [hwlen] at hm
  have hstd : npStd (f.take lt) * Real.sqrt lt = Real.sqrt (sumSqDev (f.take lt)) := by
    rw [npStd, ← sumSqDev, hwlen, ← Real.sqrt_mul (by
      have := sumSqDev_nonneg (f.take lt)
      positivity)]
    rw [div_mul_cancel₀ _ (by exact_mod_cast h0.ne')]
  rw [calculate_reorder_point, hmean, mul_assoc, hstd]

/-- The claim's `average_daily_demand`: the mean of the first `lead_time_days`
forecast means, written as the spec states it (window sum over
`lead_time_days`). -/
def average_daily_demand_claim (f : List ℝ) (lt : ℕ) : ℝ := (f.take lt).sum / lt

/-- The claim's `demand_std`: the sample standard deviation (`N - 1`
denominator) of the same window, as the spec states it. -/
def demand_std_sample (f : List ℝ) (lt : ℕ) : ℝ :=
  Real.sqrt
    (((f.take lt).map (fun x => (x - average_daily_demand_claim f lt) ^ 2)).sum
      / ((lt - 1 : ℕ) : ℝ))

/-- The population standard deviation (`N` denominator) of the window, the
convention numpy's `ndarray.std()` actually uses. -/
def demand_std_population (f : List ℝ) (lt : ℕ) : ℝ :=
  Real.sqrt
    (((f.take lt).map (fun x => (x - average_daily_demand_claim f lt) ^ 2)).sum
      / (lt : ℝ))

/-- The reorder point exactly as claim C1 states it: with the sample
standard deviation. -/
def reorder_point_claimed (f : List ℝ) (lt : ℕ) (sf : ℝ) : ℝ :=
  average_daily_demand_claim f lt * lt + sf * demand_std_sample f lt * Real.sqrt lt

/-- The reorder point with the claim's formula amended to the population
standard deviation. -/
def reorder_point_amended_form (f : List ℝ) (lt : ℕ) (sf : ℝ) : ℝ :=
  average_daily_demand_claim f lt * lt + sf * demand_std_population f lt * Real.sqrt lt

lemma sqrt_twentyfive : Real.sqrt 25 = 5 := by
  rw [show (25 : ℝ) = 5 ^ 2 by norm_num]
  exact Real.sqrt_sq (by norm_num)

lemma sqrt_two_lt_two : Real.sqrt 2 < 2 :=
  (Real.sqrt_lt' (by norm_num)).mpr (by norm_num)

/-- Claim C1, counterexample: on the forecast `[0, 10]` with
`lead_time_days = 2` and `safety_factor = 3/2`, `calculate_reorder_point`
does not return the claimed formula built from the sample standard deviation
(`N - 1` denominator): the code yields `10 + (15/2)·√2 ≈ 20.6` while the
claimed formula yields `25`. -/
theorem reorder_point_sample_std_counterexample :
    calculate_reorder_point [0, 10] 2 (3 / 2) ≠ reorder_point_claimed [0, 10] 2 (3 / 2) := by
  have htake : (([0, 10] : List ℝ)).take 2 = [0, 10] := rfl
  have hmean : npMean ([0, 10] : List ℝ) = 5 := by
    norm_num [npMean]
  have hstd : npStd ([0, 10] : List ℝ) = 5 := by
    rw [npStd]
    simp only [hmean]
    norm_num [sqrt_twentyfive]
  have hcode : calculate_reorder_point [0, 10] 2 (3 / 2)
      = 10 + 15 / 2 * Real.sqrt 2 := by
    rw [calculate_reorder_point, htake, hmean, hstd]
    push_cast
    ring
  have havg : average_daily_demand_claim ([0, 10] : List ℝ) 2 = 5 := by
    norm_num [average_daily_demand_claim]
  have hsamp : demand_std_sample ([0, 10] : List ℝ) 2 = Real.sqrt 50 := by
    rw [demand_std_sample]
    simp only [havg, htake]
    norm_num
  have hfifty : Real.sqrt 50 * Real.sqrt 2 = 10 := by
    rw [← Real.sqrt_mul (by norm_num : (0 : ℝ) ≤ 50)]
    rw [show (50 : ℝ) * 2 = 10 ^ 2 by norm_num]
    exact Real.sqrt_sq (by norm_num)
  have hclaim : reorder_point_claimed [0, 10] 2 (3 / 2) = 25 := by
    rw [reorder_point_claimed, havg, hsamp, mul_assoc]
    push_cast
    rw [hfifty]
    ring
  rw [hcode, hclaim]
  intro h
  have := sqrt_two_lt_two
  linarith

/-- Claim C1 (amended): for every forecast of non-negative daily demands and
every `0 < lead_time_days ≤` forecast length, `calculate_reorder_point`
returns `average_daily_demand × lead_time_days + safety_factor × demand_std ×
sqrt(lead_time_days)`, where `demand_std` is the population standard
deviation (`N` denominator, numpy's `ndarray.std()` default) of the first
`lead_time_days` forecast means — not the sample (`N - 1`) standard
deviation. -/
theorem reorder_point_population_std_formula (f : List ℝ) (lt : ℕ) (sf : ℝ)
    (_h0 : 0 < lt) (hlen : lt ≤ f.length) (_hnn : ∀ x ∈ f, 0 ≤ x) :
    calculate_reorder_point f lt sf = reorder_point_amended_form f lt sf := by
  have hwlen : (f.take lt).length = lt := by
    rw [List.length_take, Nat.min_eq_left hlen]
  have hmean : npMean (f.take lt) = average_daily_demand_claim f lt := by
    rw [npMean, hwlen, average_daily_demand_claim]
  have hstd : npStd (f.take lt) = demand_std_population f lt := by
    rw [npStd, demand_std_population]
    simp only [hmean, hwlen]
  rw [calculate_reorder_point, hmean, hstd, reorder_point_amended_form]

/-- Witness for the amended claim C1: the claim's concrete instance, 30 days
of constant demand 10, `lead_time_days = 7`, `safety_factor = 1.5`, gives
exactly 70. -/
theorem reorder_point_population_std_formula_check :
    0 < 7 ∧ 7 ≤ (List.replicate 30 (10 : ℝ)).length
      ∧ (∀ x ∈ List.replicate 30 (10 : ℝ), 0 ≤ x)
      ∧ calculate_reorder_point (List.replicate 30 10) 7 (3 / 2) = 70 := by
  have hnn : ∀ x ∈ List.replicate 30 (10 : ℝ), 0 ≤ x := by
    intro x hx
    rw [List.eq_of_mem_replicate hx]
    norm_num
  refine ⟨by norm_num, by simp, hnn, ?_⟩
  rw [reorder_point_population_std_formula (List.replicate 30 10) 7 (3 / 2)
    (by norm_num) (by simp) hnn]
  have havg : average_daily_demand_claim (List.replicate 30 (10 : ℝ)) 7 = 10 := by
    rw [average_daily_demand_claim, List.take_replicate]
    norm_num [List.sum_replicate]
  have hstd : demand_std_population (List.replicate 30 (10 : ℝ)) 7 = 0 := by
    rw [demand_std_population, List.take_replicate]
    simp only [havg]
    norm_num [List.map_replicate, List.sum_replicate]
  rw [reorder_point_amended_form, havg, hstd]
  norm_num

/-- Claim C6: with a single-entry window (`lead_time_days = 1`), the demand
standard deviation computed by the code is 0, so the safety stock vanishes
and the reorder point equals that single day's forecast mean — a real number,
never NaN (numpy's population `std` of one point is 0, unlike the sample
convention). -/
theorem reorder_point_single_day_window (m sf : ℝ) (rest : List ℝ) :
    npStd ((m :: rest).take 1) = 0 ∧ calculate_reorder_point (m :: rest) 1 sf = m := by
  have htake : (m :: rest).take 1 = [m] := rfl
  have hmean : npMean [m] = m := by
    simp [npMean]
  have hstd : npStd [m] = 0 := by
    rw [npStd]
    simp [hmean]
  refine ⟨by rw [htake]; exact hstd, ?_⟩
  rw [calculate_reorder_point, htake, hmean, hstd]
  simp

/-- Claim C8: holding the other inputs fixed, `calculate_reorder_point` is
monotonically non-decreasing in the safety factor, and monotonically
non-decreasing in the lead time on any forecast of non-negative demands long
enough to cover both lead times. -/
theorem reorder_point_monotone (f : List ℝ) (hf : ∀ x ∈ f, 0 ≤ x) :
    (∀ (lt : ℕ) (sf sf' : ℝ), 0 ≤ sf → sf ≤ sf' →
        calculate_reorder_point f lt sf ≤ calculate_reorder_point f lt sf') ∧
    (∀ (lt lt' : ℕ) (sf : ℝ), 0 ≤ sf → 0 < lt → lt ≤ lt' → lt' ≤ f.length →
        calculate_reorder_point f lt sf ≤ calculate_reorder_point f lt' sf) := by
  constructor
  · intro lt sf sf' hsf hle
    rw [calculate_reorder_point, calculate_reorder_point]
    have hstd : 0 ≤ npStd (f.take lt) := Real.sqrt_nonneg _
    have hsq : 0 ≤ Real.sqrt lt := Real.sqrt_nonneg _
    nlinarith [mul_le_mul_of_nonneg_right hle (mul_nonneg hstd hsq)]
  · intro lt lt' sf hsf h0 hle hlen
    rw [reorder_point_closed_form f lt sf h0 (le_trans hle hlen),
        reorder_point_closed_form f lt' sf (lt_of_lt_of_le h0 hle) hlen]
    have h1 := take_sum_mono f hf hle
    have h3 : Real.sqrt (sumSqDev (f.take lt)) ≤ Real.sqrt (sumSqDev (f.take lt')) :=
      Real.sqrt_le_sqrt (sumSqDev_take_mono f hle)
    nlinarith [mul_le_mul_of_nonneg_left h3 hsf]

/-- Witness for claim C8, on the forecast `[1, 2]`. -/
theorem reorder_point_monotone_check :
    (∀ x ∈ [(1 : ℝ), 2], 0 ≤ x) ∧ (0 : ℝ) ≤ 1 ∧ (1 : ℝ) ≤ 2 ∧ 0 < 1 ∧ 1 ≤ 2
      ∧ 2 ≤ ([(1 : ℝ), 2]).length
      ∧ calculate_reorder_point [(1 : ℝ), 2] 1 1 ≤ calculate_reorder_point [(1 : ℝ), 2] 1 2
      ∧ calculate_reorder_point [(1 : ℝ), 2] 1 1 ≤ calculate_reorder_point [(1 : ℝ), 2] 2 1 := by
  have hf : ∀ x ∈ [(1 : ℝ), 2], 0 ≤ x := by
    intro x hx
    simp at hx
    rcases hx with rfl | rfl <;> norm_num
  refine ⟨hf, by norm_num, by norm_num, by norm_num, by norm_num, by simp, ?_, ?_⟩
  · exact (reorder_point_monotone [(1 : ℝ), 2] hf).1 1 1 2 (by norm_num) (by norm_num)
  · exact (reorder_point_monotone [(1 : ℝ), 2] hf).2 1 2 1 (by norm_num) (by norm_num)
      (by norm_num) (by simp)

/-- Claim C2: for non-negative annual demand and ordering cost, a holding
cost rate in `[0, 1]`, positive unit cost and positive holding cost,
`calculate_eoq` returns `sqrt(2 × annual_demand × ordering_cost /
holding_cost)` with `holding_cost = holding_cost_rate × unit_cost`, and
returns 0 when the annual demand is 0. -/
theorem eoq_formula_ok (D S hp c : ℝ) (hD : 0 ≤ D) (hS : 0 ≤ S)
    (_hp0 : 0 ≤ hp) (_hp1 : hp ≤ 1) (_hc : 0 < c) (hh : 0 < hp * c) :
    calculate_eoq D S hp c = PyNumResult.val (Real.sqrt (2 * D * S / (hp * c)))
      ∧ (D = 0 → calculate_eoq D S hp c = PyNumResult.val 0) := by
  have hrad : 0 ≤ 2 * D * S / (hp * c) := by positivity
  have heq : calculate_eoq D S hp c
      = PyNumResult.val (Real.sqrt (2 * D * S / (hp * c))) := by
    rw [calculate_eoq, if_neg hh.ne', if_neg (not_lt.mpr hrad)]
  refine ⟨heq, fun hD0 => ?_⟩
  rw [heq, hD0]
  simp

/-- Witness for claim C2: the claim's concrete instance
`annual_demand = 1200`, `ordering_cost = 50`, `holding_cost_rate = 0.2`,
`unit_cost = 10` gives `sqrt 60000 = 244.95 ± 0.01`. -/
theorem eoq_formula_ok_check :
    (0 : ℝ) ≤ 1200 ∧ (0 : ℝ) ≤ 50 ∧ (0 : ℝ) ≤ 0.2 ∧ (0.2 : ℝ) ≤ 1
      ∧ (0 : ℝ) < 10 ∧ (0 : ℝ) < 0.2 * 10
      ∧ calculate_eoq 1200 50 0.2 10 = PyNumResult.val (Real.sqrt 60000)
      ∧ |Real.sqrt 60000 - 244.95| < 0.01 := by
  refine ⟨by norm_num, by norm_num, by norm_num, by norm_num, by norm_num,
    by norm_num, ?_, ?_⟩
  · have h := (eoq_formula_ok 1200 50 0.2 10 (by norm_num) (by norm_num)
      (by norm_num) (by norm_num) (by norm_num) (by norm_num)).1
    rw [h, show (2 : ℝ) * 1200 * 50 / (0.2 * 10) = 60000 by norm_num]
  · have hlo : (244.94 : ℝ) < Real.sqrt 60000 :=
      (Real.lt_sqrt (by norm_num)).mpr (by norm_num)
    have hhi : Real.sqrt 60000 < 244.95 :=
      (Real.sqrt_lt' (by norm_num)).mpr (by norm_num)
    rw [abs_lt]
    constructor <;> linarith

/-- Claim C3, counterexample: at `holding_cost_rate = 0` the code does not
fail with `InvalidCostParametersError`; the unguarded float division
`2 * annual_demand * ordering_cost / holding_cost` itself raises
`ZeroDivisionError` — that is, the code does perform a division by zero. -/
theorem eoq_zero_holding_cost_divzero :
    calculate_eoq 1200 50 0 10 = PyNumResult.zeroDivisionError := by
  rw [calculate_eoq, if_pos (by norm_num)]

/-- Claim C3 (amended): `calculate_eoq` performs no validation and the
repository defines no `InvalidCostParametersError`.  Whenever
`holding_cost = holding_cost_rate × unit_cost` is zero the division raises
`ZeroDivisionError`, and whenever it is negative (with positive demand and
ordering cost) the expression `(negative) ** 0.5` produces a complex,
non-real value; in neither case is a real EOQ returned. -/
theorem eoq_nonpositive_holding_cost (D S hp c : ℝ) (hD : 0 < D) (hS : 0 < S) :
    (hp * c = 0 → calculate_eoq D S hp c = PyNumResult.zeroDivisionError)
      ∧ (hp * c < 0 → calculate_eoq D S hp c = PyNumResult.complexResult) := by
  constructor
  · intro h
    rw [calculate_eoq, if_pos h]
  · intro h
    have hrad : 2 * D * S / (hp * c) < 0 :=
      div_neg_of_pos_of_neg (by positivity) h
    rw [calculate_eoq, if_neg h.ne, if_pos hrad]

/-- Witness for the amended claim C3, with a negative holding cost. -/
theorem eoq_nonpositive_holding_cost_check :
    (0 : ℝ) < 1200 ∧ (0 : ℝ) < 50 ∧ (-1 : ℝ) * 10 < 0
      ∧ calculate_eoq 1200 50 (-1) 10 = PyNumResult.complexResult := by
  refine ⟨by norm_num, by norm_num, by norm_num, ?_⟩
  exact (eoq_nonpositive_holding_cost 1200 50 (-1) 10 (by norm_num)
    (by norm_num)).2 (by norm_num)

/-- Claim C4: for every non-negative current stock and every forecast window,
the `get_forecast` endpoint computes `days_until_stockout` as
`current_stock / average_daily_demand` exactly when the average daily demand
is positive, and otherwise returns the distinguished unbounded sentinel; a
finite result only ever arises from a division by a positive (hence non-zero)
denominator, so no divide-by-zero value can leak out. -/
theorem days_until_stockout_guarded (stock : ℝ) (yhat : List ℝ)
    (_hs : 0 ≤ stock) :
    (0 < npMean yhat →
        get_forecast_days_until_stockout stock yhat
          = StockoutDays.days (stock / npMean yhat))
      ∧ (npMean yhat ≤ 0 →
          get_forecast_days_until_stockout stock yhat = StockoutDays.unbounded)
      ∧ (∀ d : ℝ, get_forecast_days_until_stockout stock yhat = StockoutDays.days d →
          0 < npMean yhat ∧ d = stock / npMean yhat) := by
  refine ⟨?_, ?_, ?_⟩
  · intro h
    rw [get_forecast_days_until_stockout, days_until_stockout, if_pos h]
  · intro h
    rw [get_forecast_days_until_stockout, days_until_stockout,
      if_neg (not_lt.mpr h)]
  · intro d hd
    rw [get_forecast_days_until_stockout, days_until_stockout] at hd
    by_cases h : 0 < npMean yhat
    · rw [if_pos h] at hd
      injection hd with hval
      exact ⟨h, hval.symm⟩
    · rw [if_neg h] at hd
      exact absurd hd (by simp)

/-- Witness for claim C4: stock 4 against a constant forecast of 2 gives 2
days until stockout. -/
theorem days_until_stockout_guarded_check :
    (0 : ℝ) ≤ 4 ∧ get_forecast_days_until_stockout 4 [2, 2, 2] = StockoutDays.days 2 := by
  have hm : npMean ([2, 2, 2] : List ℝ) = 2 := by
    norm_num [npMean]
  refine ⟨by norm_num, ?_⟩
  have h := (days_until_stockout_guarded 4 [2, 2, 2] (by norm_num)).1
    (by rw [hm]; norm_num)
  rw [h, hm]
  norm_num

/-- Claim C5: the status of a recommendation is a function of the current
stock and the reorder point alone; it is `OutOfStock` exactly when the
current stock is 0 (regardless of the forecast), `ReorderNeeded` when the
positive stock is at most the reorder point, `Sufficient` when it exceeds
it, and these three are the only status values. -/
theorem evaluate_status_rules (cs : ℝ) (f f2 : List ℝ) (lt lt2 : ℕ)
    (sf sf2 : ℝ) :
    (calculate_reorder_point f lt sf = calculate_reorder_point f2 lt2 sf2 →
        (evaluate cs f lt sf).status = (evaluate cs f2 lt2 sf2).status)
      ∧ (cs = 0 → (evaluate cs f lt sf).status = StockStatus.outOfStock)
      ∧ (cs ≠ 0 → cs ≤ calculate_reorder_point f lt sf →
          (evaluate cs f lt sf).status = StockStatus.reorderNeeded)
      ∧ (cs ≠ 0 → calculate_reorder_point f lt sf < cs →
          (evaluate cs f lt sf).status = StockStatus.sufficient)
      ∧ (∀ s : StockStatus, s = StockStatus.outOfStock
          ∨ s = StockStatus.reorderNeeded ∨ s = StockStatus.sufficient) := by
  refine ⟨?_, ?_, ?_, ?_, ?_⟩
  · intro h
    simp only [evaluate]
    rw [h]
  · intro h
    simp only [evaluate, evaluate_status]
    rw [if_pos h]
  · intro h1 h2
    simp only [evaluate, evaluate_status]
    rw [if_neg h1, if_pos h2]
  · intro h1 h2
    simp only [evaluate, evaluate_status]
    rw [if_neg h1, if_neg (not_le.mpr h2)]
  · intro s
    cases s
    · exact Or.inl rfl
    · exact Or.inr (Or.inl rfl)
    · exact Or.inr (Or.inr rfl)

/-- Witness for claim C5: zero stock is `OutOfStock` whatever the forecast. -/
theorem evaluate_status_rules_check :
    (0 : ℝ) = 0 ∧ (evaluate 0 [(5 : ℝ), 3] 2 1).status = StockStatus.outOfStock :=
  ⟨rfl, (evaluate_status_rules 0 [(5 : ℝ), 3] [(5 : ℝ), 3] 2 2 1 1).2.1 rfl⟩

lemma jsRound_bracket (p : ℤ) (hp : 0 ≤ p) :
    jsRound ((p : ℝ) - (p : ℝ) * 0.15) ≤ p
      ∧ p ≤ jsRound ((p : ℝ) + (p : ℝ) * 0.15) := by
  have hpr : (0 : ℝ) ≤ (p : ℝ) := by exact_mod_cast hp
  constructor
  · rw [jsRound]
    have hlt : (p : ℝ) - (p : ℝ) * 0.15 + 1 / 2 < ((p + 1 : ℤ) : ℝ) := by
      push_cast
      linarith
    have := Int.floor_lt.mpr hlt
    omega
  · rw [jsRound]
    exact Int.le_floor.mpr (by linarith)

/-- Claim C7: every entry generated by `generateDummyData` satisfies
`lower_bound ≤ mean ≤ upper_bound`, for every index of the 7-day horizon and
every value of the three `Math.random()` draws in `[0, 1)`. -/
theorem dummy_forecast_bounds_bracket_mean (r1 r2 r3 : ℝ) (i : ℕ)
    (h1a : 0 ≤ r1) (_h1b : r1 < 1) (h2a : 0 ≤ r2) (_h2b : r2 < 1)
    (h3a : 0 ≤ r3) (_h3b : r3 < 1) :
    lowerAt r1 r2 r3 i ≤ predictedAt r1 r2 r3 i
      ∧ predictedAt r1 r2 r3 i ≤ upperAt r1 r2 r3 i := by
  have hb : (0 : ℝ) ≤ (baseValue r1 : ℝ) := by
    rw [baseValue]
    push_cast
    have h0 : (0 : ℤ) ≤ ⌊r1 * 1000⌋ := Int.floor_nonneg.mpr (by positivity)
    have h0r : (0 : ℝ) ≤ (⌊r1 * 1000⌋ : ℝ) := by exact_mod_cast h0
    linarith
  have ht : (0 : ℝ) ≤ trendFactor r3 ^ i := by
    apply pow_nonneg
    rw [trendFactor]
    linarith
  have hs : (0 : ℝ) ≤ seasonalFactor r2 := by
    rw [seasonalFactor]
    linarith
  have hp : (0 : ℤ) ≤ predictedAt r1 r2 r3 i := by
    rw [predictedAt, jsRound]
    apply Int.floor_nonneg.mpr
    have := mul_nonneg (mul_nonneg hb ht) hs
    linarith
  constructor
  · rw [lowerAt]
    exact (jsRound_bracket _ hp).1
  · rw [upperAt]
    exact (jsRound_bracket _ hp).2

/-- Witness for claim C7, at all three random draws 0 and index 0. -/
theorem dummy_forecast_bounds_check :
    (0 : ℝ) ≤ 0 ∧ (0 : ℝ) < 1
      ∧ lowerAt 0 0 0 0 ≤ predictedAt 0 0 0 0
      ∧ predictedAt 0 0 0 0 ≤ upperAt 0 0 0 0 := by
  refine ⟨le_refl 0, by norm_num, ?_, ?_⟩
  · exact (dummy_forecast_bounds_bracket_mean 0 0 0 0 (le_refl 0) (by norm_num)
      (le_refl 0) (by norm_num) (le_refl 0) (by norm_num)).1
  · exact (dummy_forecast_bounds_bracket_mean 0 0 0 0 (le_refl 0) (by norm_num)
      (le_refl 0) (by norm_num) (le_refl 0) (by norm_num)).2

/-- Claim C9: blending a two-component ensemble whose components are the same
forecast with equal weights `1/2, 1/2` reproduces that forecast exactly: each
date's reconciled mean and bounds are the weighted sums
`(1/2)·x + (1/2)·x = x`. -/
theorem combine_equal_weights_identity (F : List ForecastEntry) :
    combine2 (1 / 2) (1 / 2) F F = F := by
  induction F with
  | nil => rfl
  | cons e t ih =>
      obtain ⟨m, l, u⟩ := e
      simp only [combine2, List.zipWith_cons_cons, List.cons.injEq,
        ForecastEntry.mk.injEq]
      refine ⟨⟨by ring, by ring, by ring⟩, ?_⟩
      simpa [combine2] using ih

/-- Claim C10: the `Alert` component's `variants` lookup is total only on the
four declared variant keys; each of those yields its declared style string,
while any other variant string yields `undefined`, which the template literal
renders as the literal text `undefined` inside the class string. -/
theorem alert_unknown_variant_renders_undefined :
    alertVariants "default" = some "bg-blue-50 text-blue-800"
      ∧ alertVariants "destructive" = some "bg-red-50 text-red-800"
      ∧ alertVariants "success" = some "bg-green-50 text-green-800"
      ∧ alertVariants "warning" = some "bg-yellow-50 text-yellow-800"
      ∧ (∀ v c : String, v ≠ "default" → v ≠ "destructive" → v ≠ "success" →
          v ≠ "warning" →
          alertVariants v = none
            ∧ alertClassName v c = "rounded-md p-4 undefined " ++ c) := by
  refine ⟨rfl, rfl, rfl, rfl, ?_⟩
  intro v c h1 h2 h3 h4
  have hv : alertVariants v = none := by
    rw [alertVariants, if_neg h1, if_neg h2, if_neg h3, if_neg h4]
  refine ⟨hv, ?_⟩
  rw [alertClassName, hv]
  rfl

/-- Witness for claim C10: the undeclared variant `info` renders the text
`undefined` into the class string. -/
theorem alert_unknown_variant_check :
    ("info" : String) ≠ "default" ∧ ("info" : String) ≠ "destructive"
      ∧ ("info" : String) ≠ "success" ∧ ("info" : String) ≠ "warning"
      ∧ alertVariants "info" = none
      ∧ alertClassName "info" "extra" = "rounded-md p-4 undefined extra" := by
  have h := alert_unknown_variant_renders_undefined.2.2.2.2 "info" "extra"
    (by decide) (by decide) (by decide) (by decide)
  refine ⟨by decide, by decide, by decide, by decide, h.1, ?_⟩
  rw [h.2]
  rfl

end

end BrainyFools
